import Mathlib

/-!
# Container slot widget of the map editor

A shallow embedding of `source/container_properties_window.cpp`:
the slot button (`ContainerItemButton`) with its handlers and the shared
context menu (`ContainerItemPopupMenu`).

Conventions of the embedding.

* An `Item*` is an address (`ItemPtr`); two pointers are identical when the
  addresses are equal.
* Sizes, the slot index and the container volume are natural numbers: the
  values the C++ comparisons see for every list shorter than `2^31` entries.
* A handler is a function from the widget (with the chain of its parent
  windows, which holds the edited container) and the answers of the modal
  dialogs to a `Run`: how the handler left, the widget afterwards and the
  calls it made on its collaborators, in order.
* Dereferencing the null `Container*` ends the run with `Status.nullDeref`.
-/

namespace ContainerProperties

/-! ## Data model -/

/-- Address of an `Item` object (`Item*`). -/
abbrev ItemPtr := Nat

/-- Result of `wxWindow::GetPosition()`. -/
abbrev wxPoint := Int × Int

/-- The `Container` of complexitem.h as far as this file reads it:
`getVolume()` and the `ItemVector` behind `getVector()` / `getItemCount()`. -/
structure Container where
  volume : Nat
  contents : List ItemPtr
deriving DecidableEq, Repr

/-- Window of the toolkit, seen through `dynamic_cast<ObjectPropertiesWindowBase*>`:
either some other window, or a property-editor window together with
`dynamic_cast<Container*>(getItemBeingEdited())` (`none` when that cast
yields `nullptr`). -/
inductive wxWindow where
  | other (position : wxPoint)
  | ObjectPropertiesWindowBase (position : wxPoint) (edited : Option Container)
deriving DecidableEq, Repr

/-- The part of `Map` read here: `getVersion().otbm`. -/
structure Map where
  otbm : Int
deriving DecidableEq, Repr

/-- The slot widget: `parents` is the chain `GetParent()`, `GetParent()->GetParent()`, ...
up to the root; the other fields are the members set by the constructor.
`edit_item` is `none` for `nullptr`; `index` is the value compared with
`itemVector.size()`. -/
structure ContainerItemButton where
  parents : List wxWindow
  edit_map : Map
  edit_item : Option ItemPtr
  index : Nat
deriving DecidableEq, Repr

/-- Identifiers of the three menu commands. -/
inductive MenuId where
  | CONTAINER_POPUP_MENU_ADD
  | CONTAINER_POPUP_MENU_EDIT
  | CONTAINER_POPUP_MENU_REMOVE
deriving DecidableEq, Repr

/-- Entry of a `wxMenu`: command id and the enabled flag. -/
structure wxMenuItem where
  id : MenuId
  enabled : Bool
deriving DecidableEq, Repr

/-- Direct entries of a `wxMenu`, first position first. -/
abbrev wxMenu := List wxMenuItem

/-- The two property dialogs `OnEditItem` chooses between. -/
inductive Editor where
  | OldPropertiesWindow
  | PropertiesWindow
deriving DecidableEq, Repr

/-- Calls a handler makes on its collaborators. -/
inductive Effect where
  | findItemDialog
  | itemCreate (id : Int) (created : ItemPtr)
  | popupDialog
  | showModal (d : Editor) (item : ItemPtr) (at_ : wxPoint)
  | deleteItem (item : ItemPtr)
  | windowUpdate
deriving DecidableEq, Repr

/-- How a handler left. -/
inductive Status where
  | returned
  | assertFailed
  | nullDeref
deriving DecidableEq, Repr

/-- Outcome of a handler: status, widget afterwards (at the fault when the
handler did not return) and the collaborator calls made so far. -/
structure Run where
  status : Status
  btn : ContainerItemButton
  effects : List Effect
deriving DecidableEq, Repr

/-- Outcome of `ContainerItemPopupMenu::Update`. -/
structure MenuRun where
  status : Status
  menu : wxMenu
deriving DecidableEq, Repr

/-- The value `wxID_YES` from the toolkit's `defs.h`. -/
def wxID_YES : Int := 5103

/-! ## `std::vector` operations used by the handlers -/

/-- Model of `v.insert(v.begin() + pos, x)`: the entries from `pos` on move one
place up. The handlers call it only with `pos < v.size()`. -/
def vectorInsert : List ItemPtr → Nat → ItemPtr → List ItemPtr
  | l, 0, x => x :: l
  | [], _ + 1, x => [x]
  | a :: l, n + 1, x => a :: vectorInsert l n x

/-- Model of `v.push_back(x)`. -/
def push_back (l : List ItemPtr) (x : ItemPtr) : List ItemPtr := l ++ [x]

/-- Model of `v.erase(v.begin() + pos)`: the entries after `pos` move one place
down. -/
def vectorErase : List ItemPtr → Nat → List ItemPtr
  | [], _ => []
  | _ :: l, 0 => l
  | a :: l, n + 1 => a :: vectorErase l n

/-- The search loop of `OnRemoveItem`: position of the iterator when the loop
`for(; it != end; ++it) if(*it == edit_item) break;` is left; it is the size
of the vector when the loop ran to `end()`. -/
def findIt (edit_item : ItemPtr) : List ItemPtr → Nat
  | [] => 0
  | a :: l => if a = edit_item then 0 else findIt edit_item l + 1

/-! ## Locating the container -/

/-- Method `getParentContainerWindow`: the first property-editor window on the parent
chain, or `none` for `nullptr`. -/
def getParentContainerWindow : List wxWindow → Option (wxPoint × Option Container)
  | [] => none
  | wxWindow.ObjectPropertiesWindowBase p c :: _ => some (p, c)
  | wxWindow.other _ :: rest => getParentContainerWindow rest

/-- Method `getParentContainer`: the container edited by that window, `none` for
`nullptr` (no window, or the edited item is not a container). -/
def getParentContainer (btn : ContainerItemButton) : Option Container :=
  match getParentContainerWindow btn.parents with
  | some (_, c) => c
  | none => none

/-- Writing through the `Container*` obtained from `getParentContainer`: the
container of the first property-editor window on the chain is replaced. -/
def storeContainer : List wxWindow → Container → List wxWindow
  | [], _ => []
  | wxWindow.ObjectPropertiesWindowBase p _ :: rest, c =>
      wxWindow.ObjectPropertiesWindowBase p (some c) :: rest
  | wxWindow.other p :: rest, c => wxWindow.other p :: storeContainer rest c

/-- The tail of `OnAddItem` and `OnRemoveItem`:
`if(propertyWindow) propertyWindow->Update();`. -/
def refresh (btn : ContainerItemButton) (effects : List Effect) : Run :=
  match getParentContainerWindow btn.parents with
  | some _ => ⟨Status.returned, btn, effects ++ [Effect.windowUpdate]⟩
  | none => ⟨Status.returned, btn, effects⟩

/-- Modelled from the spec: the `ASSERT` macro, which main.h defines and this
file only uses. A violated assertion is a fatal failure: the handler stops
there, with what it had done so far. -/
def ASSERT (cond : Bool) (btn : ContainerItemButton) (effects : List Effect)
    (rest : Run) : Run :=
  if cond then rest else ⟨Status.assertFailed, btn, effects⟩

/-! ## Handlers of the slot widget -/

/-- Handler `ContainerItemButton::OnAddItem`. `id` is the answer of the item picker,
`created` the pointer `Item::Create(id)` returns. -/
def OnAddItem (btn : ContainerItemButton) (id : Int) (created : ItemPtr) : Run :=
  if id = 0 then
    ⟨Status.returned, btn, [Effect.findItemDialog]⟩
  else
    match getParentContainer btn with
    | none => ⟨Status.nullDeref, btn, [Effect.findItemDialog]⟩
    | some container =>
      let itemVector :=
        if btn.index < container.contents.length then
          vectorInsert container.contents btn.index created
        else
          push_back container.contents created
      refresh
        { btn with parents := storeContainer btn.parents { container with contents := itemVector } }
        [Effect.findItemDialog, Effect.itemCreate id created]

/-- The walk of `OnEditItem` for the dialog position: the position of the
first property-editor window above the widget, the default point otherwise. -/
def newDialogAt (parents : List wxWindow) : wxPoint :=
  match getParentContainerWindow parents with
  | some (p, _) => (p.1 + 20, p.2 + 20)
  | none => (0 + 20, 0 + 20)

/-- Handler `ContainerItemButton::OnEditItem`; `MAP_OTBM_4` is the threshold constant
of the map headers. -/
def OnEditItem (MAP_OTBM_4 : Int) (btn : ContainerItemButton) : Run :=
  match btn.edit_item with
  | none => ASSERT false btn [] ⟨Status.returned, btn, []⟩
  | some edit_item =>
    ASSERT true btn []
      (if btn.edit_map.otbm ≥ MAP_OTBM_4 then
        ⟨Status.returned, btn,
          [Effect.showModal Editor.PropertiesWindow edit_item (newDialogAt btn.parents)]⟩
      else
        ⟨Status.returned, btn,
          [Effect.showModal Editor.OldPropertiesWindow edit_item (newDialogAt btn.parents)]⟩)

/-- Handler `ContainerItemButton::OnRemoveItem`; `ret` is the answer of the
confirmation dialog. -/
def OnRemoveItem (btn : ContainerItemButton) (ret : Int) : Run :=
  match btn.edit_item with
  | none => ASSERT false btn [] ⟨Status.returned, btn, []⟩
  | some edit_item =>
    ASSERT true btn []
      (if ret ≠ wxID_YES then
        ⟨Status.returned, btn, [Effect.popupDialog]⟩
      else
        match getParentContainer btn with
        | none => ⟨Status.nullDeref, btn, [Effect.popupDialog]⟩
        | some container =>
          let it := findIt edit_item container.contents
          ASSERT (it != container.contents.length) btn [Effect.popupDialog]
            (refresh
              { btn with
                parents := storeContainer btn.parents
                  { container with contents := vectorErase container.contents it } }
              [Effect.popupDialog, Effect.deleteItem edit_item]))

/-- Handler `ContainerItemButton::OnMouseDoubleLeftClick`. -/
def OnMouseDoubleLeftClick (MAP_OTBM_4 : Int) (btn : ContainerItemButton)
    (id : Int) (created : ItemPtr) : Run :=
  match btn.edit_item with
  | some _ => OnEditItem MAP_OTBM_4 btn
  | none =>
    match getParentContainer btn with
    | none => ⟨Status.nullDeref, btn, []⟩
    | some container =>
      if container.volume > container.contents.length then
        OnAddItem btn id created
      else
        ⟨Status.returned, btn, []⟩

/-! ## The context menu -/

/-- The clearing loop of `Update`: while the menu has entries, the entry at
position 0 is deleted. -/
def clearMenu : wxMenu → wxMenu
  | [] => []
  | _ :: rest => clearMenu rest

/-- Method `wxMenu::Append`: a new, enabled entry at the end. -/
def Append (menu : wxMenu) (id : MenuId) : wxMenu := menu ++ [⟨id, true⟩]

/-- Call `addItem->Enable(false)` on the entry at position `pos`. -/
def disableAt : wxMenu → Nat → wxMenu
  | [], _ => []
  | m :: rest, 0 => { m with enabled := false } :: rest
  | m :: rest, n + 1 => m :: disableAt rest n

/-- Method `ContainerItemPopupMenu::Update`. The second component of `built`
is the position of the entry `addItem` points to; the `(int)` cast of the
vector size is the identity on the sizes considered here. -/
def Update (menu : wxMenu) (btn : ContainerItemButton) : MenuRun :=
  let menu := clearMenu menu
  let built : wxMenu × Nat :=
    match btn.edit_item with
    | some _ =>
      let m1 := Append menu MenuId.CONTAINER_POPUP_MENU_EDIT
      let m2 := Append m1 MenuId.CONTAINER_POPUP_MENU_ADD
      (Append m2 MenuId.CONTAINER_POPUP_MENU_REMOVE, m1.length)
    | none => (Append menu MenuId.CONTAINER_POPUP_MENU_ADD, menu.length)
  match getParentContainer btn with
  | none => ⟨Status.nullDeref, built.1⟩
  | some parentContainer =>
    if parentContainer.volume ≤ parentContainer.contents.length then
      ⟨Status.returned, disableAt built.1 built.2⟩
    else
      ⟨Status.returned, built.1⟩

/-- Handler `ContainerItemButton::OnMouseRightRelease` up to the display of the menu:
the shared menu is created on first use and rebuilt for this widget. -/
def OnMouseRightRelease (popup_menu : Option wxMenu) (btn : ContainerItemButton) : MenuRun :=
  Update (popup_menu.getD []) btn

/-- The event table: the handler bound to each menu command. -/
def EVT_MENU (MAP_OTBM_4 : Int) (btn : ContainerItemButton) (command : MenuId)
    (id : Int) (created : ItemPtr) (ret : Int) : Run :=
  match command with
  | MenuId.CONTAINER_POPUP_MENU_ADD => OnAddItem btn id created
  | MenuId.CONTAINER_POPUP_MENU_EDIT => OnEditItem MAP_OTBM_4 btn
  | MenuId.CONTAINER_POPUP_MENU_REMOVE => OnRemoveItem btn ret

/-- One user action on a slot widget, with the answers the dialogs will give. -/
inductive UserInput where
  | leftDown (id : Int) (created : ItemPtr)
  | rightUp (popup_menu : Option wxMenu) (choice : Option MenuId)
      (id : Int) (created : ItemPtr) (ret : Int)
deriving DecidableEq, Repr

/-- The step of the widget on a user action. A right click builds the menu;
the user then dismisses it or picks an entry, which must be present and
enabled (`none` when the action is not possible). -/
def step (MAP_OTBM_4 : Int) (btn : ContainerItemButton) : UserInput → Option Run
  | UserInput.leftDown id created => some (OnMouseDoubleLeftClick MAP_OTBM_4 btn id created)
  | UserInput.rightUp popup_menu choice id created ret =>
    let shown := OnMouseRightRelease popup_menu btn
    match shown.status with
    | Status.returned =>
      match choice with
      | none => some ⟨Status.returned, btn, []⟩
      | some command =>
        if (⟨command, true⟩ : wxMenuItem) ∈ shown.menu then
          some (EVT_MENU MAP_OTBM_4 btn command id created ret)
        else
          none
    | s => some ⟨s, btn, []⟩

/-- The editor dialogs a run opened, in order. -/
def editorsOpened (r : Run) : List Editor :=
  r.effects.filterMap fun eff =>
    match eff with
    | Effect.showModal d _ _ => some d
    | _ => none

/-! ## Example widgets -/

/-- A slot widget at index 1 of a bag of volume 4 holding three items; the
property-editor window is the grandparent. -/
def slotInBag : ContainerItemButton :=
  ⟨[wxWindow.other (3, 4), wxWindow.ObjectPropertiesWindowBase (100, 50) (some ⟨4, [10, 11, 12]⟩)],
    ⟨3⟩, some 11, 1⟩

/-- The empty slot at index 3 of the same bag. -/
def emptySlotInBag : ContainerItemButton :=
  ⟨[wxWindow.other (3, 4), wxWindow.ObjectPropertiesWindowBase (100, 50) (some ⟨4, [10, 11, 12]⟩)],
    ⟨3⟩, none, 3⟩

/-- A widget with a bound item that is not in the bag's list. -/
def staleSlotInBag : ContainerItemButton :=
  ⟨[wxWindow.ObjectPropertiesWindowBase (100, 50) (some ⟨4, [10, 11, 12]⟩)], ⟨3⟩, some 77, 1⟩

/-- A slot widget whose parent chain holds no property-editor window. -/
def detachedSlot : ContainerItemButton :=
  ⟨[wxWindow.other (3, 4), wxWindow.other (0, 0)], ⟨3⟩, some 11, 0⟩

/-! ## Auxiliary facts -/

theorem vectorInsert_eq (l : List ItemPtr) (i : Nat) (x : ItemPtr) (h : i ≤ l.length) :
    vectorInsert l i x = l.take i ++ x :: l.drop i := by
  induction l generalizing i with
  | nil =>
    cases i with
    | zero => simp [vectorInsert]
    | succ n => simp at h
  | cons a l ih =>
    cases i with
    | zero => simp [vectorInsert]
    | succ n =>
      have hn : n ≤ l.length := by simpa using h
      simp [vectorInsert, ih n hn]

theorem vectorErase_eq (l : List ItemPtr) (k : Nat) :
    vectorErase l k = l.take k ++ l.drop (k + 1) := by
  induction l generalizing k with
  | nil => simp [vectorErase]
  | cons a l ih =>
    cases k with
    | zero => simp [vectorErase]
    | succ n => simp [vectorErase, ih n]

theorem vectorErase_length (l : List ItemPtr) (k : Nat) (h : k < l.length) :
    (vectorErase l k).length + 1 = l.length := by
  induction l generalizing k with
  | nil => simp at h
  | cons a l ih =>
    cases k with
    | zero => simp [vectorErase]
    | succ n =>
      have hn : n < l.length := by simpa using h
      simp [vectorErase, ih n hn]

theorem findIt_le (e : ItemPtr) (l : List ItemPtr) : findIt e l ≤ l.length := by
  induction l with
  | nil => simp [findIt]
  | cons a l ih =>
    by_cases h : a = e
    · simp [findIt, h]
    · simp [findIt, h, ih]

theorem findIt_lt_of_mem (e : ItemPtr) (l : List ItemPtr) (h : e ∈ l) :
    findIt e l < l.length := by
  induction l with
  | nil => simp at h
  | cons a l ih =>
    by_cases ha : a = e
    · simp [findIt, ha]
    · have hm : e ∈ l := by
        rcases List.mem_cons.mp h with h1 | h1
        · exact absurd h1.symm ha
        · exact h1
      simp [findIt, ha, ih hm]

theorem findIt_eq_length_of_not_mem (e : ItemPtr) (l : List ItemPtr) (h : e ∉ l) :
    findIt e l = l.length := by
  induction l with
  | nil => simp [findIt]
  | cons a l ih =>
    have ha : a ≠ e := fun hae => h (by simp [hae])
    have hm : e ∉ l := fun hm => h (List.mem_cons_of_mem _ hm)
    simp [findIt, ha, ih hm]

theorem findIt_get (e : ItemPtr) (l : List ItemPtr) (h : findIt e l < l.length) :
    l[findIt e l]? = some e := by
  induction l with
  | nil => simp at h
  | cons a l ih =>
    by_cases ha : a = e
    · simp [findIt, ha]
    · have h2 : findIt e l < l.length := by simpa [findIt, ha] using h
      simp [findIt, ha, ih h2]

theorem findIt_first (e : ItemPtr) (l : List ItemPtr) (j : Nat) (h : j < findIt e l) :
    l[j]? ≠ some e := by
  induction l generalizing j with
  | nil => simp
  | cons a l ih =>
    by_cases ha : a = e
    · simp [findIt, ha] at h
    · cases j with
      | zero => simpa using ha
      | succ n =>
        have h2 : n < findIt e l := by simpa [findIt, ha] using h
        simpa using ih n h2

theorem window_of_container (btn : ContainerItemButton) (c : Container)
    (h : getParentContainer btn = some c) :
    ∃ p, getParentContainerWindow btn.parents = some (p, some c) := by
  unfold getParentContainer at h
  cases hw : getParentContainerWindow btn.parents with
  | none => simp [hw] at h
  | some w =>
    obtain ⟨p, oc⟩ := w
    simp [hw] at h
    exact ⟨p, by rw [h]⟩

theorem window_store (ps : List wxWindow) (p : wxPoint) (oc : Option Container)
    (c : Container) (h : getParentContainerWindow ps = some (p, oc)) :
    getParentContainerWindow (storeContainer ps c) = some (p, some c) := by
  induction ps with
  | nil => simp [getParentContainerWindow] at h
  | cons w rest ih =>
    cases w with
    | other q =>
      simp only [getParentContainerWindow] at h
      simpa [storeContainer, getParentContainerWindow] using ih h
    | ObjectPropertiesWindowBase q d =>
      simp only [getParentContainerWindow, Option.some.injEq, Prod.mk.injEq] at h
      simp [storeContainer, getParentContainerWindow, h.1]

theorem window_none_store (ps : List wxWindow) (c : Container)
    (h : getParentContainerWindow ps = none) : storeContainer ps c = ps := by
  induction ps with
  | nil => rfl
  | cons w rest ih =>
    cases w with
    | other q =>
      simp only [getParentContainerWindow] at h
      simp [storeContainer, ih h]
    | ObjectPropertiesWindowBase q d => simp [getParentContainerWindow] at h

theorem refresh_of_window (btn : ContainerItemButton) (effects : List Effect)
    (w : wxPoint × Option Container) (h : getParentContainerWindow btn.parents = some w) :
    refresh btn effects = ⟨Status.returned, btn, effects ++ [Effect.windowUpdate]⟩ := by
  simp [refresh, h]

theorem container_none_of_window_none (btn : ContainerItemButton)
    (h : getParentContainerWindow btn.parents = none) : getParentContainer btn = none := by
  simp [getParentContainer, h]

/-- What `OnAddItem` does once the picker answered with an id other than 0 and
the container is found. -/
theorem OnAddItem_run (btn : ContainerItemButton) (c : Container) (id : Int) (x : ItemPtr)
    (hid : id ≠ 0) (hc : getParentContainer btn = some c) :
    OnAddItem btn id x =
      ⟨Status.returned,
        { btn with parents := storeContainer btn.parents ⟨c.volume,
            if btn.index < c.contents.length then vectorInsert c.contents btn.index x
            else push_back c.contents x⟩ },
        [Effect.findItemDialog, Effect.itemCreate id x, Effect.windowUpdate]⟩ := by
  obtain ⟨p, hw⟩ := window_of_container btn c hc
  unfold OnAddItem
  simp only [hid, if_false, hc]
  rw [refresh_of_window _ _ (p, some _) (window_store btn.parents p (some c) _ hw)]
  rfl

theorem container_after_store (btn : ContainerItemButton) (c c' : Container)
    (hc : getParentContainer btn = some c) :
    getParentContainer { btn with parents := storeContainer btn.parents c' } = some c' := by
  obtain ⟨p, hw⟩ := window_of_container btn c hc
  simp [getParentContainer, window_store btn.parents p (some c) c' hw]

/-- What `OnRemoveItem` does once the user confirmed, the container is found
and the search loop stopped at position `findIt` before the end. -/
theorem OnRemoveItem_run (btn : ContainerItemButton) (c : Container) (e : ItemPtr)
    (he : btn.edit_item = some e) (hc : getParentContainer btn = some c)
    (hk : findIt e c.contents < c.contents.length) :
    OnRemoveItem btn wxID_YES =
      ⟨Status.returned,
        { btn with parents := storeContainer btn.parents ⟨c.volume,
            vectorErase c.contents (findIt e c.contents)⟩ },
        [Effect.popupDialog, Effect.deleteItem e, Effect.windowUpdate]⟩ := by
  obtain ⟨p, hw⟩ := window_of_container btn c hc
  have hne : findIt e c.contents ≠ c.contents.length := Nat.ne_of_lt hk
  unfold OnRemoveItem
  simp only [he, hc, ASSERT, if_true, ne_eq, not_true_eq_false, if_false, bne_iff_ne, hne,
    not_false_eq_true]
  rw [refresh_of_window _ _ (p, some _) (window_store btn.parents p (some c) _ hw)]
  rfl

theorem vectorErase_findIt (e : ItemPtr) (l : List ItemPtr) :
    vectorErase l (findIt e l) = l.erase e := by
  induction l with
  | nil => simp [vectorErase]
  | cons a l ih =>
    by_cases ha : a = e
    · simp [findIt, ha, vectorErase]
    · simp [findIt, ha, vectorErase, ih, List.erase_cons]

theorem OnAddItem_inserts_length (btn : ContainerItemButton) (c : Container) (id : Int)
    (x : ItemPtr) (hid : id ≠ 0) (hc : getParentContainer btn = some c) :
    getParentContainer (OnAddItem btn id x).btn =
        some ⟨c.volume,
          if btn.index < c.contents.length then vectorInsert c.contents btn.index x
          else push_back c.contents x⟩ ∧
    (if btn.index < c.contents.length then vectorInsert c.contents btn.index x
      else push_back c.contents x).length = c.contents.length + 1 := by
  rw [OnAddItem_run btn c id x hid hc]
  refine ⟨container_after_store btn c _ hc, ?_⟩
  by_cases hlt : btn.index < c.contents.length
  · have hins := vectorInsert_eq c.contents btn.index x (Nat.le_of_lt hlt)
    simp only [hlt, if_true, hins]
    simp [List.length_take, List.length_drop]
    omega
  · simp [hlt, push_back]

theorem invariant_violations_of_absent (btn : ContainerItemButton) (e : ItemPtr) (c : Container)
    (he : btn.edit_item = some e) (hc : getParentContainer btn = some c) (hnm : e ∉ c.contents) :
    OnRemoveItem btn wxID_YES = ⟨Status.assertFailed, btn, [Effect.popupDialog]⟩ := by
  have hend := findIt_eq_length_of_not_mem e c.contents hnm
  simp [OnRemoveItem, he, hc, ASSERT, hend]

/-! ## Add and Remove -/

/-- C1: `OnAddItem` with a chosen id other than 0, on a container with item
list `l` and a widget at slot index `i`: the handler returns, and the list
afterwards is `take i l ++ [x] ++ drop i l` when `i < length l` (so `x` is at
position `i`) and `l ++ [x]` when `i ≥ length l`; in both cases the length is
`length l + 1` and the volume is untouched. -/
theorem OnAddItem_inserts_at_index (btn : ContainerItemButton) (c : Container) (id : Int)
    (x : ItemPtr) (hid : id ≠ 0) (hc : getParentContainer btn = some c) :
    (OnAddItem btn id x).status = Status.returned ∧
    (btn.index < c.contents.length →
      (getParentContainer (OnAddItem btn id x).btn).map Container.contents =
          some (c.contents.take btn.index ++ [x] ++ c.contents.drop btn.index) ∧
        (getParentContainer (OnAddItem btn id x).btn).map (fun d => d.contents[btn.index]?) =
          some (some x)) ∧
    (c.contents.length ≤ btn.index →
      (getParentContainer (OnAddItem btn id x).btn).map Container.contents =
        some (c.contents ++ [x])) ∧
    (getParentContainer (OnAddItem btn id x).btn).map (fun d => d.contents.length) =
      some (c.contents.length + 1) ∧
    (getParentContainer (OnAddItem btn id x).btn).map Container.volume = some c.volume := by
  rw [OnAddItem_run btn c id x hid hc]
  simp only [container_after_store btn c _ hc, Option.map_some']
  refine ⟨trivial, ?_, ?_, ?_, trivial⟩
  · intro hlt
    have hins := vectorInsert_eq c.contents btn.index x (Nat.le_of_lt hlt)
    simp only [hlt, if_true, hins]
    refine ⟨by simp, ?_⟩
    have hlen : (c.contents.take btn.index).length = btn.index := by
      simp [List.length_take, Nat.le_of_lt hlt]
    rw [List.getElem?_append_right (by omega)]
    simp [hlen]
  · intro hge
    have hnlt : ¬ btn.index < c.contents.length := Nat.not_lt.mpr hge
    simp [hnlt, push_back]
  · by_cases hlt : btn.index < c.contents.length
    · have hins := vectorInsert_eq c.contents btn.index x (Nat.le_of_lt hlt)
      simp only [hlt, if_true, hins]
      simp [List.length_take, List.length_drop]
      omega
    · simp [hlt, push_back]

theorem OnAddItem_inserts_at_index_witness :
    ((7 : Int) ≠ 0 ∧ getParentContainer slotInBag = some ⟨4, [10, 11, 12]⟩) ∧
    (getParentContainer (OnAddItem slotInBag 7 99).btn).map Container.contents =
      some [10, 99, 11, 12] :=
  ⟨⟨by decide, by decide⟩,
    ((OnAddItem_inserts_at_index slotInBag ⟨4, [10, 11, 12]⟩ 7 99 (by decide)
      (by decide)).2.1 (by decide)).1⟩

/-- C2: `OnRemoveItem` on a widget whose bound item `e` occurs in the
container's list, confirmed with Yes: the handler returns; the entry erased is
the one at the first position `k` holding `e`; the list afterwards is the old
list without position `k` (every other entry in its old order, which is the
old list with the first occurrence of `e` erased), one entry shorter; the
volume is untouched. -/
theorem OnRemoveItem_erases_bound_item (btn : ContainerItemButton) (c : Container)
    (e : ItemPtr) (he : btn.edit_item = some e) (hc : getParentContainer btn = some c)
    (hm : e ∈ c.contents) :
    (OnRemoveItem btn wxID_YES).status = Status.returned ∧
    findIt e c.contents < c.contents.length ∧
    c.contents[findIt e c.contents]? = some e ∧
    (∀ j, j < findIt e c.contents → c.contents[j]? ≠ some e) ∧
    (getParentContainer (OnRemoveItem btn wxID_YES).btn).map Container.contents =
      some (c.contents.take (findIt e c.contents) ++ c.contents.drop (findIt e c.contents + 1)) ∧
    (getParentContainer (OnRemoveItem btn wxID_YES).btn).map Container.contents =
      some (c.contents.erase e) ∧
    (getParentContainer (OnRemoveItem btn wxID_YES).btn).map (fun d => d.contents.length + 1) =
      some c.contents.length ∧
    (getParentContainer (OnRemoveItem btn wxID_YES).btn).map Container.volume = some c.volume := by
  have hk := findIt_lt_of_mem e c.contents hm
  rw [OnRemoveItem_run btn c e he hc hk]
  simp only [container_after_store btn c _ hc, Option.map_some']
  refine ⟨trivial, hk, findIt_get e c.contents hk, fun j hj => findIt_first e c.contents j hj,
    ?_, ?_, ?_, trivial⟩
  · rw [vectorErase_eq]
  · rw [vectorErase_findIt]
  · rw [vectorErase_length c.contents _ hk]

theorem OnRemoveItem_erases_bound_item_witness :
    (slotInBag.edit_item = some 11 ∧ getParentContainer slotInBag = some ⟨4, [10, 11, 12]⟩ ∧
      11 ∈ ([10, 11, 12] : List ItemPtr)) ∧
    (getParentContainer (OnRemoveItem slotInBag wxID_YES).btn).map Container.contents =
      some [10, 12] :=
  ⟨⟨by decide, by decide, by decide⟩,
    (OnRemoveItem_erases_bound_item slotInBag ⟨4, [10, 11, 12]⟩ 11 (by decide) (by decide)
      (by decide)).2.2.2.2.2.1⟩

/-- C3: when the item picker of `OnAddItem` answers 0, the handler returns with
the widget, its window chain and so the container's list as they were, having
only shown the picker; when the confirmation of `OnRemoveItem` answers
anything but `wxID_YES`, the widget and the container's list are as they were
and no refresh is requested, and on a widget with a bound item the handler
returns having only shown the confirmation. -/
theorem cancelled_dialog_changes_nothing (btn : ContainerItemButton) (x : ItemPtr) (ret : Int)
    (hret : ret ≠ wxID_YES) :
    OnAddItem btn 0 x = ⟨Status.returned, btn, [Effect.findItemDialog]⟩ ∧
    getParentContainer (OnAddItem btn 0 x).btn = getParentContainer btn ∧
    Effect.windowUpdate ∉ (OnAddItem btn 0 x).effects ∧
    (OnRemoveItem btn ret).btn = btn ∧
    getParentContainer (OnRemoveItem btn ret).btn = getParentContainer btn ∧
    Effect.windowUpdate ∉ (OnRemoveItem btn ret).effects ∧
    (btn.edit_item ≠ none →
      OnRemoveItem btn ret = ⟨Status.returned, btn, [Effect.popupDialog]⟩) := by
  have hadd : OnAddItem btn 0 x = ⟨Status.returned, btn, [Effect.findItemDialog]⟩ := by
    simp [OnAddItem]
  have hrem : (OnRemoveItem btn ret).btn = btn ∧
      Effect.windowUpdate ∉ (OnRemoveItem btn ret).effects ∧
      (btn.edit_item ≠ none →
        OnRemoveItem btn ret = ⟨Status.returned, btn, [Effect.popupDialog]⟩) := by
    cases he : btn.edit_item with
    | none => simp [OnRemoveItem, he, ASSERT]
    | some e => simp [OnRemoveItem, he, ASSERT, hret]
  refine ⟨hadd, ?_, ?_, hrem.1, ?_, hrem.2.1, hrem.2.2⟩
  · rw [hadd]
  · rw [hadd]; simp
  · rw [hrem.1]

theorem cancelled_dialog_changes_nothing_witness :
    (5104 : Int) ≠ wxID_YES ∧
    OnAddItem slotInBag 0 99 = ⟨Status.returned, slotInBag, [Effect.findItemDialog]⟩ ∧
    OnRemoveItem slotInBag 5104 = ⟨Status.returned, slotInBag, [Effect.popupDialog]⟩ :=
  ⟨by decide, (cancelled_dialog_changes_nothing slotInBag 99 5104 (by decide)).1,
    (cancelled_dialog_changes_nothing slotInBag 99 5104 (by decide)).2.2.2.2.2.2 (by decide)⟩

/-! ## Primary activation -/

/-- C4: `OnMouseDoubleLeftClick` is a three-way dispatch: on a widget with a
bound item it is `OnEditItem`, whatever the container's count and volume (and
whether or not a container is found); on a widget without one, it is
`OnAddItem` when count < volume, and otherwise (count = volume included) it
returns at once with the widget and the container as they were and no
collaborator called. -/
theorem OnMouseDoubleLeftClick_dispatch (MAP_OTBM_4 : Int) (btn : ContainerItemButton)
    (id : Int) (x : ItemPtr) :
    (btn.edit_item ≠ none →
      OnMouseDoubleLeftClick MAP_OTBM_4 btn id x = OnEditItem MAP_OTBM_4 btn) ∧
    (btn.edit_item = none → ∀ c : Container, getParentContainer btn = some c →
      (c.contents.length < c.volume →
        OnMouseDoubleLeftClick MAP_OTBM_4 btn id x = OnAddItem btn id x) ∧
      (¬ c.contents.length < c.volume →
        OnMouseDoubleLeftClick MAP_OTBM_4 btn id x = ⟨Status.returned, btn, []⟩) ∧
      (c.contents.length = c.volume →
        OnMouseDoubleLeftClick MAP_OTBM_4 btn id x = ⟨Status.returned, btn, []⟩)) := by
  constructor
  · intro hb
    cases he : btn.edit_item with
    | none => exact absurd he hb
    | some e => simp [OnMouseDoubleLeftClick, he]
  · intro he c hc
    refine ⟨?_, ?_, ?_⟩
    · intro hlt
      simp [OnMouseDoubleLeftClick, he, hc, hlt]
    · intro hnlt
      simp [OnMouseDoubleLeftClick, he, hc, hnlt]
    · intro heq
      have hnlt : ¬ c.contents.length < c.volume := by omega
      simp [OnMouseDoubleLeftClick, he, hc, hnlt]

theorem OnMouseDoubleLeftClick_dispatch_witness :
    (slotInBag.edit_item ≠ none ∧ emptySlotInBag.edit_item = none ∧
      getParentContainer emptySlotInBag = some ⟨4, [10, 11, 12]⟩ ∧
      ([10, 11, 12] : List ItemPtr).length < 4) ∧
    OnMouseDoubleLeftClick 3 slotInBag 7 99 = OnEditItem 3 slotInBag ∧
    OnMouseDoubleLeftClick 3 emptySlotInBag 7 99 = OnAddItem emptySlotInBag 7 99 :=
  ⟨⟨by decide, by decide, by decide, by decide⟩,
    (OnMouseDoubleLeftClick_dispatch 3 slotInBag 7 99).1 (by decide),
    ((OnMouseDoubleLeftClick_dispatch 3 emptySlotInBag 7 99).2 (by decide) ⟨4, [10, 11, 12]⟩
      (by decide)).1 (by decide)⟩

/-! ## The context menu -/

theorem clearMenu_eq (menu : wxMenu) : clearMenu menu = [] := by
  induction menu with
  | nil => rfl
  | cons m rest ih => simpa [clearMenu] using ih

/-- The menu `Update` leaves, once the container is found. -/
theorem Update_run (prior : wxMenu) (btn : ContainerItemButton) (c : Container)
    (hc : getParentContainer btn = some c) :
    Update prior btn =
      ⟨Status.returned,
        match btn.edit_item with
        | some _ =>
          [⟨MenuId.CONTAINER_POPUP_MENU_EDIT, true⟩,
            ⟨MenuId.CONTAINER_POPUP_MENU_ADD, decide (c.contents.length < c.volume)⟩,
            ⟨MenuId.CONTAINER_POPUP_MENU_REMOVE, true⟩]
        | none => [⟨MenuId.CONTAINER_POPUP_MENU_ADD, decide (c.contents.length < c.volume)⟩]⟩ := by
  unfold Update
  simp only [clearMenu_eq, hc]
  by_cases hfull : c.volume ≤ c.contents.length
  · have hnlt : ¬ c.contents.length < c.volume := Nat.not_lt.mpr hfull
    cases he : btn.edit_item <;> simp [hfull, hnlt, Append, disableAt]
  · have hlt : c.contents.length < c.volume := Nat.lt_of_not_le hfull
    cases he : btn.edit_item <;> simp [hfull, hlt, Append]

/-- C5: whatever entries the shared menu held before, once `Update` has run
for a widget (whose container is found, so that `Update` returns) the menu's
entries are Edit, Add, Remove in that order when the widget has a bound item
and the single entry Add when it has none. -/
theorem Update_entries (prior : wxMenu) (btn : ContainerItemButton) (c : Container)
    (hc : getParentContainer btn = some c) :
    (Update prior btn).status = Status.returned ∧
    (btn.edit_item ≠ none →
      (Update prior btn).menu.map wxMenuItem.id =
        [MenuId.CONTAINER_POPUP_MENU_EDIT, MenuId.CONTAINER_POPUP_MENU_ADD,
          MenuId.CONTAINER_POPUP_MENU_REMOVE]) ∧
    (btn.edit_item = none →
      (Update prior btn).menu.map wxMenuItem.id = [MenuId.CONTAINER_POPUP_MENU_ADD]) := by
  rw [Update_run prior btn c hc]
  refine ⟨rfl, ?_, ?_⟩
  · intro hb
    cases he : btn.edit_item with
    | none => exact absurd he hb
    | some e => simp
  · intro he
    simp [he]

theorem Update_entries_witness :
    (getParentContainer slotInBag = some ⟨4, [10, 11, 12]⟩ ∧ slotInBag.edit_item ≠ none) ∧
    (Update [⟨MenuId.CONTAINER_POPUP_MENU_REMOVE, false⟩, ⟨MenuId.CONTAINER_POPUP_MENU_ADD, true⟩]
        slotInBag).menu.map wxMenuItem.id =
      [MenuId.CONTAINER_POPUP_MENU_EDIT, MenuId.CONTAINER_POPUP_MENU_ADD,
        MenuId.CONTAINER_POPUP_MENU_REMOVE] :=
  ⟨⟨by decide, by decide⟩,
    (Update_entries _ slotInBag ⟨4, [10, 11, 12]⟩ (by decide)).2.1 (by decide)⟩

/-- C6: after `Update` (for a widget whose container is found) the menu has an
Add entry, every Add entry is disabled exactly when the container's item count
is ≥ its volume (enabled exactly when count < volume), with or without a bound
item, and every entry other than Add is enabled. -/
theorem Update_add_enabled_iff (prior : wxMenu) (btn : ContainerItemButton) (c : Container)
    (hc : getParentContainer btn = some c) :
    (∃ m, m ∈ (Update prior btn).menu ∧ m.id = MenuId.CONTAINER_POPUP_MENU_ADD) ∧
    (∀ m, m ∈ (Update prior btn).menu → m.id = MenuId.CONTAINER_POPUP_MENU_ADD →
      ((m.enabled = false ↔ c.volume ≤ c.contents.length) ∧
        (m.enabled = true ↔ c.contents.length < c.volume))) ∧
    (∀ m, m ∈ (Update prior btn).menu → m.id ≠ MenuId.CONTAINER_POPUP_MENU_ADD →
      m.enabled = true) := by
  rw [Update_run prior btn c hc]
  cases he : btn.edit_item with
  | none =>
    refine ⟨⟨_, List.mem_singleton.mpr rfl, rfl⟩, ?_, ?_⟩
    · intro m hm _
      rw [List.mem_singleton.mp hm]
      simp
    · intro m hm hne
      rw [List.mem_singleton.mp hm] at hne
      exact absurd rfl hne
  | some e =>
    refine ⟨⟨⟨MenuId.CONTAINER_POPUP_MENU_ADD, decide (c.contents.length < c.volume)⟩,
      by simp, rfl⟩, ?_, ?_⟩
    · intro m hm hid
      simp only [List.mem_cons, List.mem_singleton, List.not_mem_nil, or_false] at hm
      rcases hm with h | h | h
      · rw [h] at hid; cases hid
      · rw [h]; simp
      · rw [h] at hid; cases hid
    · intro m hm hne
      simp only [List.mem_cons, List.mem_singleton, List.not_mem_nil, or_false] at hm
      rcases hm with h | h | h
      · rw [h]
      · rw [h] at hne; exact absurd rfl hne
      · rw [h]

theorem Update_add_enabled_iff_witness :
    getParentContainer slotInBag = some ⟨4, [10, 11, 12]⟩ ∧
    ((⟨MenuId.CONTAINER_POPUP_MENU_ADD, true⟩ : wxMenuItem).enabled = true ↔
      ([10, 11, 12] : List ItemPtr).length < 4) :=
  ⟨by decide,
    ((Update_add_enabled_iff [] slotInBag ⟨4, [10, 11, 12]⟩ (by decide)).2.1
      ⟨MenuId.CONTAINER_POPUP_MENU_ADD, true⟩ (by decide) rfl).2⟩

/-! ## Edit -/

/-- C7: on a widget with a bound item `OnEditItem` returns having opened one
editor: `OldPropertiesWindow` when the map's OTBM version is below
`MAP_OTBM_4`, `PropertiesWindow` when it is `MAP_OTBM_4` or above; any other
widget with a bound item and the same map version opens the same editor,
whatever its parent chain, container, bound item and index. -/
theorem OnEditItem_editor_by_version (MAP_OTBM_4 : Int) (btn : ContainerItemButton)
    (e : ItemPtr) (he : btn.edit_item = some e) :
    (OnEditItem MAP_OTBM_4 btn).status = Status.returned ∧
    (btn.edit_map.otbm < MAP_OTBM_4 →
      editorsOpened (OnEditItem MAP_OTBM_4 btn) = [Editor.OldPropertiesWindow]) ∧
    (btn.edit_map.otbm ≥ MAP_OTBM_4 →
      editorsOpened (OnEditItem MAP_OTBM_4 btn) = [Editor.PropertiesWindow]) ∧
    (∀ (other : ContainerItemButton) (e2 : ItemPtr), other.edit_item = some e2 →
      other.edit_map.otbm = btn.edit_map.otbm →
      editorsOpened (OnEditItem MAP_OTBM_4 other) =
        editorsOpened (OnEditItem MAP_OTBM_4 btn)) := by
  have key : ∀ (b : ContainerItemButton) (i : ItemPtr), b.edit_item = some i →
      (OnEditItem MAP_OTBM_4 b).status = Status.returned ∧
      editorsOpened (OnEditItem MAP_OTBM_4 b) =
        [if b.edit_map.otbm ≥ MAP_OTBM_4 then Editor.PropertiesWindow
          else Editor.OldPropertiesWindow] := by
    intro b i hb
    by_cases hv : b.edit_map.otbm ≥ MAP_OTBM_4
    · simp [OnEditItem, hb, ASSERT, hv, editorsOpened]
    · simp [OnEditItem, hb, ASSERT, hv, editorsOpened]
  refine ⟨(key btn e he).1, ?_, ?_, ?_⟩
  · intro hlt
    have hv : ¬ btn.edit_map.otbm ≥ MAP_OTBM_4 := by omega
    rw [(key btn e he).2]; simp [hv]
  · intro hge
    rw [(key btn e he).2]; simp [hge]
  · intro other e2 ho hsame
    rw [(key btn e he).2, (key other e2 ho).2, hsame]

theorem OnEditItem_editor_by_version_witness :
    (slotInBag.edit_item = some 11 ∧ slotInBag.edit_map.otbm ≥ 3) ∧
    editorsOpened (OnEditItem 3 slotInBag) = [Editor.PropertiesWindow] :=
  ⟨⟨by decide, by decide⟩,
    (OnEditItem_editor_by_version 3 slotInBag 11 (by decide)).2.2.1 (by decide)⟩

/-! ## Assertions -/

/-- C8: `OnEditItem` and `OnRemoveItem` on a widget without a bound item end in
an assertion failure with no dialog opened and the widget and container as
they were; `OnRemoveItem` confirmed with Yes on a widget whose bound item is
not in the container's list ends in an assertion failure after the
confirmation, with nothing erased and no refresh. -/
theorem invariant_violations_assert (MAP_OTBM_4 : Int) (btn : ContainerItemButton) (ret : Int) :
    (btn.edit_item = none →
      OnEditItem MAP_OTBM_4 btn = ⟨Status.assertFailed, btn, []⟩ ∧
      OnRemoveItem btn ret = ⟨Status.assertFailed, btn, []⟩) ∧
    (∀ (e : ItemPtr) (c : Container), btn.edit_item = some e →
      getParentContainer btn = some c → e ∉ c.contents →
      OnRemoveItem btn wxID_YES = ⟨Status.assertFailed, btn, [Effect.popupDialog]⟩) := by
  constructor
  · intro he
    simp [OnEditItem, OnRemoveItem, he, ASSERT]
  · intro e c he hc hnm
    have hend := findIt_eq_length_of_not_mem e c.contents hnm
    simp [OnRemoveItem, he, hc, ASSERT, hend]

theorem invariant_violations_assert_witness :
    (emptySlotInBag.edit_item = none ∧ staleSlotInBag.edit_item = some 77 ∧
      getParentContainer staleSlotInBag = some ⟨4, [10, 11, 12]⟩ ∧
      77 ∉ ([10, 11, 12] : List ItemPtr)) ∧
    OnEditItem 3 emptySlotInBag = ⟨Status.assertFailed, emptySlotInBag, []⟩ ∧
    OnRemoveItem staleSlotInBag wxID_YES =
      ⟨Status.assertFailed, staleSlotInBag, [Effect.popupDialog]⟩ :=
  ⟨⟨by decide, by decide, by decide, by decide⟩,
    ((invariant_violations_assert 3 emptySlotInBag 0).1 (by decide)).1,
    (invariant_violations_assert 3 staleSlotInBag 0).2 77 ⟨4, [10, 11, 12]⟩ (by decide)
      (by decide) (by decide)⟩

/-! ## A widget outside any property-editor window -/

/-- Without a property-editor window above the widget there is no container,
and `OnAddItem` with a chosen id dereferences the null container. -/
theorem OnAddItem_without_window (btn : ContainerItemButton) (id : Int) (x : ItemPtr)
    (hid : id ≠ 0) (hw : getParentContainerWindow btn.parents = none) :
    OnAddItem btn id x = ⟨Status.nullDeref, btn, [Effect.findItemDialog]⟩ := by
  simp [OnAddItem, hid, container_none_of_window_none btn hw]

/-- Without a property-editor window above the widget a confirmed
`OnRemoveItem` dereferences the null container. -/
theorem OnRemoveItem_without_window (btn : ContainerItemButton) (e : ItemPtr)
    (he : btn.edit_item = some e) (hw : getParentContainerWindow btn.parents = none) :
    OnRemoveItem btn wxID_YES = ⟨Status.nullDeref, btn, [Effect.popupDialog]⟩ := by
  simp [OnRemoveItem, he, ASSERT, container_none_of_window_none btn hw]

/-- C9: on the widget `detachedSlot`, whose upward walk finds no
property-editor window, `OnAddItem` with the chosen id 7 and a confirmed
`OnRemoveItem` both end in the dereference of the null container, before the
guarded refresh step is reached. -/
theorem detached_widget_null_container :
    getParentContainerWindow detachedSlot.parents = none ∧
    OnAddItem detachedSlot 7 99 = ⟨Status.nullDeref, detachedSlot, [Effect.findItemDialog]⟩ ∧
    OnRemoveItem detachedSlot wxID_YES =
      ⟨Status.nullDeref, detachedSlot, [Effect.popupDialog]⟩ := by
  decide

/-! ## The capacity invariant -/

theorem capacity_of_unchanged (c : Container) (r : Run) (btn : ContainerItemButton)
    (hc : getParentContainer btn = some c) (hinv : c.contents.length ≤ c.volume)
    (hr : r.btn = btn) :
    ∃ d, getParentContainer r.btn = some d ∧ d.volume = c.volume ∧
      d.contents.length ≤ d.volume :=
  ⟨c, by rw [hr]; exact hc, rfl, hinv⟩

theorem OnAddItem_capacity (btn : ContainerItemButton) (c : Container) (id : Int) (x : ItemPtr)
    (hc : getParentContainer btn = some c) (hlt : c.contents.length < c.volume) :
    ∃ d, getParentContainer (OnAddItem btn id x).btn = some d ∧ d.volume = c.volume ∧
      d.contents.length ≤ d.volume := by
  by_cases hid : id = 0
  · exact capacity_of_unchanged c _ btn hc (Nat.le_of_lt hlt) (by simp [OnAddItem, hid])
  · have h := OnAddItem_inserts_length btn c id x hid hc
    exact ⟨_, h.1, rfl, by rw [h.2]; exact hlt⟩

theorem OnEditItem_btn (MAP_OTBM_4 : Int) (btn : ContainerItemButton) :
    (OnEditItem MAP_OTBM_4 btn).btn = btn ∧
    Effect.findItemDialog ∉ (OnEditItem MAP_OTBM_4 btn).effects := by
  cases he : btn.edit_item with
  | none => simp [OnEditItem, he, ASSERT]
  | some e =>
    by_cases hv : btn.edit_map.otbm ≥ MAP_OTBM_4
    · simp [OnEditItem, he, ASSERT, hv]
    · simp [OnEditItem, he, ASSERT, hv]

theorem OnRemoveItem_capacity (btn : ContainerItemButton) (c : Container) (ret : Int)
    (hc : getParentContainer btn = some c) (hinv : c.contents.length ≤ c.volume) :
    (∃ d, getParentContainer (OnRemoveItem btn ret).btn = some d ∧ d.volume = c.volume ∧
      d.contents.length ≤ d.volume) ∧
    Effect.findItemDialog ∉ (OnRemoveItem btn ret).effects := by
  cases he : btn.edit_item with
  | none =>
    exact ⟨capacity_of_unchanged c _ btn hc hinv (by simp [OnRemoveItem, he, ASSERT]),
      by simp [OnRemoveItem, he, ASSERT]⟩
  | some e =>
    by_cases hret : ret = wxID_YES
    · subst hret
      by_cases hm : e ∈ c.contents
      · have hk := findIt_lt_of_mem e c.contents hm
        rw [OnRemoveItem_run btn c e he hc hk]
        refine ⟨⟨_, container_after_store btn c _ hc, rfl, ?_⟩, by simp⟩
        have hl := vectorErase_length c.contents _ hk
        show (vectorErase c.contents (findIt e c.contents)).length ≤ c.volume
        omega
      · have h := (invariant_violations_of_absent btn e c he hc hm)
        rw [h]
        exact ⟨capacity_of_unchanged c _ btn hc hinv rfl, by simp⟩
    · have h : OnRemoveItem btn ret = ⟨Status.returned, btn, [Effect.popupDialog]⟩ := by
        simp [OnRemoveItem, he, ASSERT, hret]
      rw [h]
      exact ⟨capacity_of_unchanged c _ btn hc hinv rfl, by simp⟩

/-- C10: `OnAddItem` itself checks no capacity (with a chosen id the count
grows by one whatever the volume), yet from a state where the container has at
most `volume` items, every user step on a slot widget (the left click, or a right click followed by the
choice of an entry that is enabled in the menu `Update` built for the widget,
or by dismissing the menu), whatever the dialogs answer, leaves a container of
the same volume with at most `volume` items; and when the step opened the item
picker of `OnAddItem`, the count before the step was below the volume. -/
theorem step_keeps_capacity (MAP_OTBM_4 : Int) (btn : ContainerItemButton) (c : Container)
    (input : UserInput) (r : Run) (id0 : Int) (x0 : ItemPtr)
    (hc : getParentContainer btn = some c)
    (hinv : c.contents.length ≤ c.volume) (hs : step MAP_OTBM_4 btn input = some r) :
    (id0 ≠ 0 →
      (getParentContainer (OnAddItem btn id0 x0).btn).map (fun d => d.contents.length) =
        some (c.contents.length + 1)) ∧
    (∃ d, getParentContainer r.btn = some d ∧ d.volume = c.volume ∧
      d.contents.length ≤ d.volume) ∧
    (Effect.findItemDialog ∈ r.effects → c.contents.length < c.volume) := by
  refine ⟨fun hid0 => ?_, ?_⟩
  · have h := OnAddItem_inserts_length btn c id0 x0 hid0 hc
    rw [h.1]
    simp only [Option.map_some']
    rw [h.2]
  cases input with
  | leftDown id x =>
    simp only [step, Option.some.injEq] at hs
    subst hs
    cases he : btn.edit_item with
    | some e =>
      have hd : OnMouseDoubleLeftClick MAP_OTBM_4 btn id x = OnEditItem MAP_OTBM_4 btn := by
        simp [OnMouseDoubleLeftClick, he]
      rw [hd]
      exact ⟨capacity_of_unchanged c _ btn hc hinv (OnEditItem_btn MAP_OTBM_4 btn).1,
        fun h => absurd h (OnEditItem_btn MAP_OTBM_4 btn).2⟩
    | none =>
      by_cases hlt : c.contents.length < c.volume
      · have hd : OnMouseDoubleLeftClick MAP_OTBM_4 btn id x = OnAddItem btn id x := by
          simp [OnMouseDoubleLeftClick, he, hc, hlt]
        rw [hd]
        exact ⟨OnAddItem_capacity btn c id x hc hlt, fun _ => hlt⟩
      · have hd : OnMouseDoubleLeftClick MAP_OTBM_4 btn id x = ⟨Status.returned, btn, []⟩ := by
          simp [OnMouseDoubleLeftClick, he, hc, hlt]
        rw [hd]
        exact ⟨capacity_of_unchanged c _ btn hc hinv rfl, by simp⟩
  | rightUp popup_menu choice id x ret =>
    have hu := Update_run (popup_menu.getD []) btn c hc
    simp only [step, OnMouseRightRelease, hu] at hs
    cases choice with
    | none =>
      simp only [Option.some.injEq] at hs
      subst hs
      exact ⟨capacity_of_unchanged c _ btn hc hinv rfl, by simp⟩
    | some command =>
      simp only at hs
      split at hs
      · rename_i hmem
        simp only [Option.some.injEq] at hs
        subst hs
        cases command with
        | CONTAINER_POPUP_MENU_ADD =>
          have hlt : c.contents.length < c.volume := by
            cases he : btn.edit_item <;> simp [he] at hmem <;> exact hmem
          exact ⟨OnAddItem_capacity btn c id x hc hlt, fun _ => hlt⟩
        | CONTAINER_POPUP_MENU_EDIT =>
          exact ⟨capacity_of_unchanged c _ btn hc hinv (OnEditItem_btn MAP_OTBM_4 btn).1,
            fun h => absurd h (OnEditItem_btn MAP_OTBM_4 btn).2⟩
        | CONTAINER_POPUP_MENU_REMOVE =>
          exact ⟨(OnRemoveItem_capacity btn c ret hc hinv).1,
            fun h => absurd h (OnRemoveItem_capacity btn c ret hc hinv).2⟩
      · cases hs

theorem step_keeps_capacity_witness :
    (getParentContainer emptySlotInBag = some ⟨4, [10, 11, 12]⟩ ∧
      ([10, 11, 12] : List ItemPtr).length ≤ 4 ∧
      step 3 emptySlotInBag (UserInput.rightUp none (some MenuId.CONTAINER_POPUP_MENU_ADD) 7 99 0)
        = some (OnAddItem emptySlotInBag 7 99)) ∧
    (∃ d, getParentContainer (OnAddItem emptySlotInBag 7 99).btn = some d ∧ d.volume = 4 ∧
      d.contents.length ≤ d.volume) :=
  ⟨⟨by decide, by decide, by decide⟩,
    (step_keeps_capacity 3 emptySlotInBag ⟨4, [10, 11, 12]⟩
      (UserInput.rightUp none (some MenuId.CONTAINER_POPUP_MENU_ADD) 7 99 0)
      (OnAddItem emptySlotInBag 7 99) 7 99 (by decide) (by decide) (by decide)).2.1⟩

end ContainerProperties
